import Mathlib

/-!
Verification of the fireworks particle-simulation core of `fireworks.js`
(the file `src/unnamed/part_000` of the repository).

The JavaScript module is shallowly embedded: JS numbers are modelled as
rationals (`ℚ`), every outcome of a `Math.random()` call is passed in as
an explicit parameter, and the mutable module-level state is threaded as
explicit values.  `Math.pow(x, 0.78)` (line 117) is modelled by an
arbitrary function parameter `pow78 : ℚ → ℚ`, assumed monotone only where
a proof needs it; no verified property depends on its values beyond
monotonicity.  Canvas drawing, audio, and `requestAnimationFrame`
bookkeeping have no effect on the simulation state and are not modelled.
Line numbers in doc comments refer to `src/unnamed/part_000`.
-/

namespace Fireworks

/-- `clamp(n, lo, hi)` (lines 253-255): `Math.max(lo, Math.min(hi, n))`. -/
def clamp (n lo hi : ℚ) : ℚ := max lo (min hi n)

/-- `lerp(a, b, t)` (lines 110-112): `a + (b - a) * t`. -/
def lerp (a b t : ℚ) : ℚ := a + (b - a) * t

/-- `TARGET_FPS` (line 97). -/
def TARGET_FPS : ℚ := 60

/-- `MIN_QUALITY` (line 98). -/
def MIN_QUALITY : ℚ := 55/100

/-- `MAX_QUALITY` (line 99). -/
def MAX_QUALITY : ℚ := 1

/-- `FPS_EMA` (line 101): smoothing factor for the FPS estimate. -/
def FPS_EMA : ℚ := 8/100

/-- `QUALITY_EMA` (line 102): smoothing factor for quality adjustments. -/
def QUALITY_EMA : ℚ := 45/1000

/-- `RESIZE_CHECK_MS` (line 103). -/
def RESIZE_CHECK_MS : ℚ := 1200

/-- `qualityFromFps(fps)` (lines 114-119):
`ratio = clamp(fps / TARGET_FPS, 0, 1); shaped = Math.pow(ratio, 0.78);
return clamp(shaped, MIN_QUALITY, MAX_QUALITY)`.
`Math.pow(·, 0.78)` is the parameter `pow78`. -/
def qualityFromFps (pow78 : ℚ → ℚ) (fps : ℚ) : ℚ :=
  let rfrac := clamp (fps / TARGET_FPS) 0 1
  let shaped := pow78 rfrac
  clamp shaped MIN_QUALITY MAX_QUALITY

/-- The quality-governor slice of the module state: the globals
`fpsSmoothed`, `quality` (lines 105-106) and the cadence timestamps
`lastQualityTs`, `lastResizeQualityCheck` (lines 107-108). -/
structure QState where
  fpsSmoothed : ℚ
  quality : ℚ
  lastQualityTs : ℚ
  lastResizeQualityCheck : ℚ
deriving DecidableEq

/-- `resetPerf()` (lines 977-982): `fpsSmoothed = TARGET_FPS; quality = 1.0;
lastQualityTs = 0; lastResizeQualityCheck = 0`. -/
def resetPerf : QState :=
  { fpsSmoothed := TARGET_FPS, quality := 1,
    lastQualityTs := 0, lastResizeQualityCheck := 0 }

/-- `updateQuality(ts, deltaMs)` (lines 779-803).  The trailing
`resize()` call (line 801) only re-measures the canvas and touches no
governor state besides `lastResizeQualityCheck`, so it is modelled as
updating that timestamp only. -/
def updateQuality (pow78 : ℚ → ℚ) (st : QState) (ts deltaMs : ℚ) : QState :=
  let d := clamp deltaMs 6 120
  let fpsInstant := 1000 / d
  let st1 : QState :=
    { st with fpsSmoothed := st.fpsSmoothed + (fpsInstant - st.fpsSmoothed) * FPS_EMA }
  let st2 : QState :=
    if 220 < ts - st1.lastQualityTs then
      let fpsForDecision := min st1.fpsSmoothed 62
      let qTarget := qualityFromFps pow78 fpsForDecision
      { st1 with
          lastQualityTs := ts
          quality := clamp (st1.quality + (qTarget - st1.quality) * QUALITY_EMA)
            MIN_QUALITY MAX_QUALITY }
    else st1
  if RESIZE_CHECK_MS < ts - st2.lastResizeQualityCheck then
    { st2 with lastResizeQualityCheck := ts }
  else st2

/-- Iterated `updateQuality` along a schedule of frame timestamps with the
per-tick wall-clock delta held at the constant `deltaMs`. -/
def qualityTrace (pow78 : ℚ → ℚ) (deltaMs : ℚ) (ts : ℕ → ℚ) (st0 : QState) : ℕ → QState
  | 0 => st0
  | n + 1 => updateQuality pow78 (qualityTrace pow78 deltaMs ts st0 n) (ts n) deltaMs

/-- The particle record shape, `baseParticle()` fields (lines 362-378). -/
structure Particle where
  x : ℚ
  y : ℚ
  px : ℚ
  py : ℚ
  vx : ℚ
  vy : ℚ
  life : ℚ
  maxLife : ℚ
  size : ℚ
  hue : ℚ
  kind : String
  twPhase : ℚ
  twAmp : ℚ
  dragMul : ℚ
  gravMul : ℚ
  windMul : ℚ
  crackleTimer : ℚ
  heat : ℚ
deriving DecidableEq

/-- `baseParticle()` (lines 362-378): the default-valued particle record
(`size: 1.6` is `8/5`). -/
def baseParticle : Particle :=
  { x := 0, y := 0, px := 0, py := 0, vx := 0, vy := 0,
    life := 60, maxLife := 60, size := 8/5, hue := 0, kind := "spark",
    twPhase := 0, twAmp := 1, dragMul := 1, gravMul := 1, windMul := 1,
    crackleTimer := 0, heat := 1 }

/-- The rocket record shape (object literal in `allocRocket`, lines 346-355). -/
structure Rocket where
  x : ℚ
  y : ℚ
  px : ℚ
  py : ℚ
  vx : ℚ
  vy : ℚ
  targetY : ℚ
  hue : ℚ
  wind : ℚ
  kind : String
  breakDelay : ℚ
  broke : Bool
deriving DecidableEq

/-- The default rocket record allocated when the pool is empty
(lines 346-355). -/
def baseRocket : Rocket :=
  { x := 0, y := 0, px := 0, py := 0, vx := 0, vy := 0,
    targetY := 0, hue := 0, wind := 0, kind := "peony",
    breakDelay := 0, broke := false }

/-- The smoke-puff record shape (object literal in `allocSmoke`,
lines 388-396). -/
structure Smoke where
  x : ℚ
  y : ℚ
  vx : ℚ
  vy : ℚ
  life : ℚ
  maxLife : ℚ
  r : ℚ
  a : ℚ
deriving DecidableEq

/-- The default smoke record allocated when the pool is empty
(lines 389-395): `r: 28, a: 0.12`. -/
def baseSmoke : Smoke :=
  { x := 0, y := 0, vx := 0, vy := 0,
    life := 60, maxLife := 60, r := 28, a := 12/100 }

/-!
Pools.  A JS pool array is used purely as a stack: `pool.push(e)` to free
and `pool.pop()` to acquire, both at the array's end.  It is modelled as a
`List` whose head is the most recently freed record.
-/

/-- `allocRocket()` (lines 345-356): `rocketPool.pop() || { ...defaults }`.
A popped record is returned as-is, with whatever field values it had when
it was freed. -/
def allocRocket (pool : List Rocket) : Rocket × List Rocket :=
  match pool with
  | [] => (baseRocket, [])
  | r :: rest => (r, rest)

/-- `freeRocket(r)` (lines 358-360): `rocketPool.push(r)`. -/
def freeRocket (r : Rocket) (pool : List Rocket) : List Rocket := r :: pool

/-- `allocParticle()` (lines 380-382): `particlePool.pop() || baseParticle()`. -/
def allocParticle (pool : List Particle) : Particle × List Particle :=
  match pool with
  | [] => (baseParticle, [])
  | p :: rest => (p, rest)

/-- `freeParticle(p)` (lines 384-386): `particlePool.push(p)`. -/
def freeParticle (p : Particle) (pool : List Particle) : List Particle := p :: pool

/-- `allocSmoke()` (lines 388-396): `smokePool.pop() || { ...defaults }`. -/
def allocSmoke (pool : List Smoke) : Smoke × List Smoke :=
  match pool with
  | [] => (baseSmoke, [])
  | s :: rest => (s, rest)

/-- `freeSmoke(s)` (lines 398-400): `smokePool.push(s)`. -/
def freeSmoke (s : Smoke) (pool : List Smoke) : List Smoke := s :: pool

/-- `maxRocketsCap()` (lines 121-126):
`clamp(Math.round(BASE_MAX_ROCKETS * lerp(0.62, 1.0, q)), 1, BASE_MAX_ROCKETS)`
with `BASE_MAX_ROCKETS = 2`.  `Math.round` is round-half-up, which is
Mathlib's `round` on `ℚ`. -/
def maxRocketsCap (q : ℚ) : ℕ :=
  (max 1 (min 2 (round (2 * lerp (62/100) 1 q)))).toNat

/-- `maxParticlesCap()` (lines 128-133):
`clamp(Math.floor(BASE_MAX_PARTICLES * lerp(0.55, 1.0, q)), 22, BASE_MAX_PARTICLES)`
with `BASE_MAX_PARTICLES = 50`. -/
def maxParticlesCap (q : ℚ) : ℕ :=
  (max 22 (min 50 ⌊50 * lerp (55/100) 1 q⌋)).toNat

/-- `maxSmokeCap()` (lines 135-139):
`clamp(Math.floor(BASE_MAX_SMOKE * lerp(0.55, 1.0, q)), 10, BASE_MAX_SMOKE)`
with `BASE_MAX_SMOKE = 28`. -/
def maxSmokeCap (q : ℚ) : ℕ :=
  (max 10 (min 28 ⌊28 * lerp (55/100) 1 q⌋)).toNat

/-- `launchQualityFactor()` (lines 158-161): `lerp(0.78, 1.0, quality)`. -/
def launchQualityFactor (q : ℚ) : ℚ := lerp (78/100) 1 q

/-- `chooseBurstKind()` (lines 523-530), with the `Math.random()` outcome
`r` passed in. -/
def chooseBurstKind (r : ℚ) : String :=
  if r < 52/100 then "peony"
  else if r < 72/100 then "ring"
  else if r < 88/100 then "palm"
  else "crackle"

/-- `roomForParticles()` (lines 563-565):
`Math.max(0, maxParticlesCap() - particles.length)` — truncated
subtraction on `ℕ`, with the capacity passed explicitly. -/
def roomForParticles (cap len : ℕ) : ℕ := cap - len

/-- `pushParticle(p)` (lines 567-573): drop (and free to the pool) when the
live list is at capacity, otherwise `particles.push(p)`.  The freed
particle only re-enters the pool, so the pool is not threaded here. -/
def pushParticle (cap : ℕ) (ps : List Particle) (p : Particle) : List Particle :=
  if cap ≤ ps.length then ps else ps ++ [p]

/-- A `for (let i = 0; i < n; i++) pushParticle(makeParticle(...))` loop
(e.g. lines 622-632).  `mk i` stands for the `makeParticle(...)` call of
one iteration, with that iteration's `Math.random()` outcomes baked in;
its result does not depend on the particle pool (see the claim about
`makeParticle` overwriting every field). -/
def pushN (cap : ℕ) (mk : ℕ → Particle) : ℕ → List Particle → List Particle
  | 0, ps => ps
  | n + 1, ps => pushN cap mk n (pushParticle cap ps (mk n))

/-- `explodePeony(x, y, hue)` (lines 616-647).  `pIntended` is
`Math.floor(rand(110, 160))`, `gIntended` is `Math.floor(rand(26, 52))`;
`mk1 i` / `mk2 i` are the primary / glitter `makeParticle(...)` calls. -/
def explodePeony (cap : ℕ) (ps : List Particle) (mk1 mk2 : ℕ → Particle)
    (pIntended gIntended : ℕ) : List Particle :=
  let room := roomForParticles cap ps.length
  if room = 0 then ps
  else
    let count := min pIntended room
    let ps1 := pushN cap mk1 count ps
    let glitterRoom := roomForParticles cap ps1.length
    let glitterCount := min gIntended glitterRoom
    pushN cap mk2 glitterCount ps1

/-- `explodeRing(x, y, hue)` (lines 649-684).  `cIntended` is
`Math.floor(rand(90, 130))`, `coreIntended` is `Math.floor(rand(18, 34))`. -/
def explodeRing (cap : ℕ) (ps : List Particle) (mk1 mk2 : ℕ → Particle)
    (cIntended coreIntended : ℕ) : List Particle :=
  let room := roomForParticles cap ps.length
  if room = 0 then ps
  else
    let count := min cIntended room
    let ps1 := pushN cap mk1 count ps
    let coreRoom := roomForParticles cap ps1.length
    let coreCount := min coreIntended coreRoom
    pushN cap mk2 coreCount ps1

/-- `explodeCrackle(x, y, hue)` (lines 713-731).  `cIntended` is
`Math.floor(rand(90, 140))`; the per-particle `crackleTimer` assignment is
part of `mk`. -/
def explodeCrackle (cap : ℕ) (ps : List Particle) (mk : ℕ → Particle)
    (cIntended : ℕ) : List Particle :=
  let room := roomForParticles cap ps.length
  if room = 0 then ps
  else pushN cap mk (min cIntended room) ps

/-- The inner loop of `explodePalm` (lines 699-709):
`for (i = 0; i < perArm && made < total; i++) { pushParticle(...); made++ }`.
The accumulator is `(particles, made)`; the fuel argument counts the
remaining inner iterations.  `mk` is applied to the running `made`
counter, standing for that iteration's `makeParticle(...)` call. -/
def armLoop (cap total : ℕ) (mk : ℕ → Particle) :
    ℕ → List Particle × ℕ → List Particle × ℕ
  | 0, acc => acc
  | j + 1, acc =>
      armLoop cap total mk j
        (if acc.2 < total then (pushParticle cap acc.1 (mk acc.2), acc.2 + 1) else acc)

/-- The outer loop of `explodePalm` (lines 695-710):
`for (a = 0; a < arms && made < total; a++) { ...inner loop... }`. -/
def palmLoop (cap total perArm : ℕ) (mk : ℕ → Particle) :
    ℕ → List Particle × ℕ → List Particle × ℕ
  | 0, acc => acc
  | a + 1, acc => palmLoop cap total perArm mk a (armLoop cap total mk perArm acc)

/-- `explodePalm(x, y, hue)` (lines 686-711).  `arms` is
`Math.floor(rand(6, 10))`, `perArm` is
`Math.max(10, Math.floor(rand(14, 20)))`;
`total = Math.min(arms * perArm, room)`. -/
def explodePalm (cap : ℕ) (ps : List Particle) (mk : ℕ → Particle)
    (arms perArm : ℕ) : List Particle :=
  let room := roomForParticles cap ps.length
  if room = 0 then ps
  else
    let total := min (arms * perArm) room
    (palmLoop cap total perArm mk arms (ps, 0)).1

/-- The crackle micro-spark block inside the particle update loop
(lines 897-916): when a crackle particle's timer fires and
`roomForParticles() > 6`, push `microCount` micro-sparks through
`pushParticle`. -/
def crackleMicroSpawn (cap : ℕ) (ps : List Particle) (mk : ℕ → Particle)
    (microCount : ℕ) : List Particle :=
  if 6 < roomForParticles cap ps.length then pushN cap mk microCount ps else ps

/-- The field-assignment block of `makeParticle(x, y, vx, vy, life, size,
hue, kind)` (lines 575-597), applied to the record `p` obtained from
`allocParticle()`.  The `rand(...)` outcomes (`twPhase` .. `heat`) are
parameters.  Every field of `p` is freshly assigned. -/
def makeParticleRecord (p : Particle) (x y vx vy life size hue : ℚ) (kind : String)
    (twPhase twAmp dragMul gravMul windMul crackleTimer heat : ℚ) : Particle :=
  { p with
      x := x, y := y, px := x, py := y, vx := vx, vy := vy,
      life := life, maxLife := life, size := size, hue := hue, kind := kind,
      twPhase := twPhase, twAmp := twAmp, dragMul := dragMul, gravMul := gravMul,
      windMul := windMul, crackleTimer := crackleTimer, heat := heat }

/-- `makeParticle(...)` (lines 575-597): acquire from the pool, then
overwrite every field. -/
def makeParticle (pool : List Particle) (x y vx vy life size hue : ℚ) (kind : String)
    (twPhase twAmp dragMul gravMul windMul crackleTimer heat : ℚ) :
    Particle × List Particle :=
  let al := allocParticle pool
  (makeParticleRecord al.1 x y vx vy life size hue kind
      twPhase twAmp dragMul gravMul windMul crackleTimer heat,
    al.2)

/-- The field-assignment block of `spawnRocket` (lines 548-558), applied
to the record obtained from `allocRocket()`.  Every field is freshly
assigned (`broke := false`, line 558). -/
def spawnRocketRecord (r : Rocket) (startX startY vx vy targetY hue wind : ℚ)
    (kind : String) (breakDelay : ℚ) : Rocket :=
  { r with
      x := startX, y := startY, px := startX, py := startY,
      vx := vx, vy := vy, targetY := targetY, hue := hue, wind := wind,
      kind := kind, breakDelay := breakDelay, broke := false }

/-- The field-assignment block of `spawnSmoke` (lines 603-611), applied to
the record obtained from `allocSmoke()`: `maxLife = life` (line 609),
every field freshly assigned. -/
def spawnSmokeRecord (s : Smoke) (x y : ℚ) (vx vy life r a : ℚ) : Smoke :=
  { s with
      x := x, y := y, vx := vx, vy := vy,
      life := life, maxLife := life, r := r, a := a }

/-- The whole mutable module state relevant to the lifecycle operations
(lines 163-187): canvas size `w`, `h`, the `running` flag, the clocks, the
ambient wind, the governor slice, the three live collections and the three
pools.  The `requestAnimationFrame` handles (`stepRafId`, `launchRafId`)
only control callback scheduling and carry no simulation data, so they are
not modelled. -/
structure FwState where
  w : ℚ
  h : ℚ
  running : Bool
  lastTs : Option ℚ
  lastLaunch : ℚ
  ignoreClicksUntil : ℚ
  currentWind : ℚ
  perf : QState
  rockets : List Rocket
  particles : List Particle
  smokePuffs : List Smoke
  rocketPool : List Rocket
  particlePool : List Particle
  smokePool : List Smoke
deriving DecidableEq

/-- The `rand(...)` outcomes consumed by `spawnSmoke` (lines 606-611). -/
structure SmokeInit where
  vx : ℚ
  vy : ℚ
  life : ℚ
  r : ℚ
  a : ℚ
deriving DecidableEq

/-- The `rand(...)` outcomes consumed by `spawnRocket` (lines 538-557). -/
structure RocketInit where
  hue : ℚ
  startX : ℚ
  speed : ℚ
  vx : ℚ
  targetY : ℚ
  kindRand : ℚ
  breakDelay : ℚ
deriving DecidableEq

/-- The random outcomes consumed by one burst pattern: the intended counts
(`c1`, `c2`), the palm arm geometry, and the per-particle
`makeParticle(...)` results (`mk1`, `mk2`). -/
structure PatRands where
  c1 : ℕ
  c2 : ℕ
  arms : ℕ
  perArm : ℕ
  mk1 : ℕ → Particle
  mk2 : ℕ → Particle

/-- `spawnSmoke(x, y)` (lines 599-614): drop when at `maxSmokeCap()`,
otherwise acquire from the pool, overwrite every field, and push onto
`smokePuffs`.  (`smokeSprite` exists whenever the module initialised, so
the line-600 sprite guard is not modelled.) -/
def spawnSmoke (st : FwState) (x y : ℚ) (si : SmokeInit) : FwState :=
  if maxSmokeCap st.perf.quality ≤ st.smokePuffs.length then st
  else
    let al := allocSmoke st.smokePool
    { st with
        smokePool := al.2
        smokePuffs := st.smokePuffs ++ [spawnSmokeRecord al.1 x y si.vx si.vy si.life si.r si.a] }

/-- `spawnRocket(x)` (lines 532-561): refuse at `maxRocketsCap()` or on a
tiny surface (`w < 10 || h < 10`), otherwise acquire from the pool,
overwrite every field (`startY = h + 10`, `vy = -speed`,
`wind = currentWind`), and push onto `rockets`. -/
def spawnRocket (st : FwState) (ri : RocketInit) : FwState :=
  if maxRocketsCap st.perf.quality ≤ st.rockets.length then st
  else if st.w < 10 ∨ st.h < 10 then st
  else
    let al := allocRocket st.rocketPool
    let r := spawnRocketRecord al.1 ri.startX (st.h + 10) ri.vx (-ri.speed) ri.targetY
      ri.hue st.currentWind (chooseBurstKind ri.kindRand) ri.breakDelay
    { st with rocketPool := al.2, rockets := st.rockets ++ [r] }

/-- `explodeBurst(x, y, hue, kind)` (lines 733-766): maybe spawn a smoke
puff (probability `0.85 * lerp(0.55, 1, quality)`, with the
`Math.random()` outcome `smokeRand` passed in), then dispatch on the
pattern kind (the `switch`, lines 740-753).  `playPop()` only touches
audio and is not modelled.  The delayed secondary mini-burst
(lines 756-765) is scheduled through `setTimeout`; its callback body is
modelled separately as `subBurstTimerFire`. -/
def explodeBurst (st : FwState) (x y hue : ℚ) (kind : String) (smokeRand : ℚ)
    (si : SmokeInit) (pr : PatRands) : FwState :=
  let st1 := if smokeRand < 85/100 * lerp (55/100) 1 st.perf.quality
    then spawnSmoke st x y si else st
  let cap := maxParticlesCap st1.perf.quality
  if kind = "ring" then
    { st1 with particles := explodeRing cap st1.particles pr.mk1 pr.mk2 pr.c1 pr.c2 }
  else if kind = "palm" then
    { st1 with particles := explodePalm cap st1.particles pr.mk1 pr.arms pr.perArm }
  else if kind = "crackle" then
    { st1 with particles := explodeCrackle cap st1.particles pr.mk1 pr.c1 }
  else
    { st1 with particles := explodePeony cap st1.particles pr.mk1 pr.mk2 pr.c1 pr.c2 }

/-- The guard of `burst` (line 769): a burst request is dropped exactly
when `w < 10 || h < 10`.  Note there is no check of `running`. -/
def burstAccepted (st : FwState) : Bool :=
  !(decide (st.w < 10) || decide (st.h < 10))

/-- `burst(x, y)` (lines 768-772): guard on the surface size only, then
`explodeBurst(x, y, randomHue(), chooseBurstKind())` with the random
outcomes passed in. -/
def burst (st : FwState) (x y hueRand kindRand smokeRand : ℚ)
    (si : SmokeInit) (pr : PatRands) : FwState :=
  if st.w < 10 ∨ st.h < 10 then st
  else explodeBurst st x y hueRand (chooseBurstKind kindRand) smokeRand si pr

/-- The body of one celebratory-burst timer scheduled by `start`
(lines 1024-1028): `() => burst(w * 0.50, h * 0.62)` etc.  The callback
calls `burst` directly; it performs no re-check of `running`. -/
def celebrationTimerFire (st : FwState) (x y hueRand kindRand smokeRand : ℚ)
    (si : SmokeInit) (pr : PatRands) : FwState :=
  burst st x y hueRand kindRand smokeRand si pr

/-- The body of the delayed secondary mini-burst timer scheduled by
`explodeBurst` (lines 760-764): `if (!running) return;` then
`explodePeony(x + dx, y + dy, hue2)` and, with probability
`0.5 * lerp(0.55, 1, quality)`, `spawnSmoke(x + dx, y + dy)`. -/
def subBurstTimerFire (st : FwState) (x y hue2 smokeRand2 : ℚ)
    (si : SmokeInit) (pr : PatRands) : FwState :=
  if st.running then
    let cap := maxParticlesCap st.perf.quality
    let st1 := { st with particles := explodePeony cap st.particles pr.mk1 pr.mk2 pr.c1 pr.c2 }
    if smokeRand2 < 1/2 * lerp (55/100) 1 st1.perf.quality then spawnSmoke st1 x y si else st1
  else st

/-- `pause()` (lines 970-975): no-op unless running; otherwise clear the
`running` flag and cancel the two frame callbacks (`stopLoops()`, which
touches no simulation data).  Live entities and canvas are untouched. -/
def pause (st : FwState) : FwState :=
  if st.running then { st with running := false } else st

/-- `resume()` (lines 984-1002): set `running`, re-measure the canvas
(`resize()`, modelled by the freshly measured `newW`/`newH`), reset the
simulation clock (`lastTs = null`), reset the launch clock and the click
ignore-window, blend the ambient wind 60/40 toward a fresh sample, reset
the governor (`resetPerf()`), and restart the loops. -/
def resume (st : FwState) (newW newH windRand now : ℚ) : FwState :=
  { st with
      running := true
      w := newW
      h := newH
      lastTs := none
      lastLaunch := now
      ignoreClicksUntil := now + 250
      currentWind := st.currentWind * (6/10) + windRand * (4/10)
      perf := resetPerf }

/-- `start({celebrate})` (lines 1004-1029): size, flags, clocks, fresh
wind, `resetPerf()`, and — only when `celebrate` — three celebratory-burst
timers at 90/170/240 ms (lines 1024-1028), returned here as the list of
scheduled delays.  `clearAll()` only clears canvas pixels. -/
def start (st : FwState) (celebrate : Bool) (newW newH windRand now : ℚ) :
    FwState × List ℚ :=
  let st1 : FwState :=
    { st with
        running := true
        w := newW
        h := newH
        ignoreClicksUntil := now + 600
        lastTs := none
        lastLaunch := now
        currentWind := windRand
        perf := resetPerf }
  (st1, if celebrate then [90, 170, 240] else [])

/-- The `while (live.length) pool.push(live.pop())` drain loops of `stop`
(lines 1034-1036): pop from the end of the live array, push onto the pool
stack. -/
def drainStack {α : Type} (live pool : List α) : List α :=
  live.reverse.foldl (fun acc x => x :: acc) pool

/-- `stop()` (lines 1031-1039): `pause()`, release every live entity back
to its pool, re-measure (`resize()`, modelled by `newW`/`newH`), and clear
the canvas (pixels only). -/
def stop (st : FwState) (newW newH : ℚ) : FwState :=
  let st1 := pause st
  { st1 with
      rockets := []
      particles := []
      smokePuffs := []
      rocketPool := drainStack st1.rockets st1.rocketPool
      particlePool := drainStack st1.particles st1.particlePool
      smokePool := drainStack st1.smokePuffs st1.smokePool
      w := newW
      h := newH }

/-- The simulated time-step computation at the top of `step(ts)`
(lines 808-813): `if (lastTs == null) lastTs = ts; deltaMs = ts - lastTs;
dt = clamp(deltaMs / 1000, 0, 0.033)`. -/
def stepDt (lastTs : Option ℚ) (ts : ℚ) : ℚ :=
  let lt := lastTs.getD ts
  clamp ((ts - lt) / 1000) 0 (33/1000)

/-- The randomized launch interval of `autoLaunch(ts)` (lines 947-952):
`base = (w < 600) ? 1600 : 1050; intervalBase = base / launchQualityFactor();
interval = intervalBase + Math.random() * intervalBase`, with the
`Math.random()` outcome `u` passed in. -/
def autoLaunchInterval (w q u : ℚ) : ℚ :=
  let base : ℚ := if w < 600 then 1600 else 1050
  let intervalBase := base / launchQualityFactor q
  intervalBase + u * intervalBase

/-- The firing condition of `autoLaunch(ts)` (line 954):
`ts - lastLaunch > interval`. -/
def autoLaunchFires (st : FwState) (ts u : ℚ) : Prop :=
  autoLaunchInterval st.w st.perf.quality u < ts - st.lastLaunch

/-- A concrete idle state on an 800×600 surface with the governor freshly
reset (`quality = 1`) and `running = false` (i.e. after a `pause`). -/
def pausedDemoState : FwState :=
  { w := 800, h := 600, running := false, lastTs := none, lastLaunch := 0,
    ignoreClicksUntil := 0, currentWind := 0, perf := resetPerf,
    rockets := [], particles := [], smokePuffs := [],
    rocketPool := [], particlePool := [], smokePool := [] }

/-- Concrete random outcomes for one burst pattern: intended counts in the
source ranges (`110 ∈ [110,160)`, `26 ∈ [26,52)`, `7 ∈ [6,10)`,
`15 ∈ [14,20)`). -/
def demoPat : PatRands :=
  { c1 := 110, c2 := 26, arms := 7, perArm := 15,
    mk1 := fun _ => baseParticle, mk2 := fun _ => baseParticle }

/-- Concrete random outcomes for one `spawnSmoke` call. -/
def demoSmoke : SmokeInit :=
  { vx := 0, vy := -5, life := 60, r := 30, a := 1/10 }

/-- A running state on a 5×5 surface: nonzero area, but narrower than the
10-pixel guard. -/
def narrowState : FwState :=
  { pausedDemoState with w := 5, h := 5, running := true }

/-- A state with one live rocket, particle and smoke puff. -/
def demoLiveState : FwState :=
  { pausedDemoState with
      rockets := [baseRocket]
      particles := [baseParticle]
      smokePuffs := [baseSmoke] }

lemma le_clamp (n lo hi : ℚ) : lo ≤ clamp n lo hi := le_max_left _ _

lemma clamp_le (n lo hi : ℚ) (h : lo ≤ hi) : clamp n lo hi ≤ hi :=
  max_le h (min_le_left _ _)

lemma clamp_eq_of (n lo hi : ℚ) (h1 : lo ≤ n) (h2 : n ≤ hi) : clamp n lo hi = n := by
  unfold clamp
  rw [min_eq_right h2, max_eq_right h1]

lemma clamp_mono (lo hi : ℚ) {a b : ℚ} (h : a ≤ b) : clamp a lo hi ≤ clamp b lo hi :=
  max_le_max le_rfl (min_le_min le_rfl h)

lemma qualityFromFps_le_one (pow78 : ℚ → ℚ) (fps : ℚ) :
    qualityFromFps pow78 fps ≤ 1 := by
  unfold qualityFromFps
  exact clamp_le _ _ _ (by norm_num [MIN_QUALITY, MAX_QUALITY])

lemma min_quality_le_qualityFromFps (pow78 : ℚ → ℚ) (fps : ℚ) :
    MIN_QUALITY ≤ qualityFromFps pow78 fps := le_clamp _ _ _

lemma qualityFromFps_mono (pow78 : ℚ → ℚ) (hm : Monotone pow78) {a b : ℚ}
    (h : a ≤ b) : qualityFromFps pow78 a ≤ qualityFromFps pow78 b := by
  unfold qualityFromFps
  refine clamp_mono _ _ (hm (clamp_mono _ _ ?_))
  have h60 : (0:ℚ) ≤ TARGET_FPS := by norm_num [TARGET_FPS]
  exact div_le_div_of_nonneg_right h h60

lemma fps_ema_between {s f : ℚ} (h : f ≤ s) :
    f ≤ s + (f - s) * FPS_EMA ∧ s + (f - s) * FPS_EMA ≤ s := by
  constructor <;> (simp only [FPS_EMA]; linarith)

lemma resize_check_quality (c : QState) (ts : ℚ) :
    ((if RESIZE_CHECK_MS < ts - c.lastResizeQualityCheck then
        { c with lastResizeQualityCheck := ts } else c) : QState).quality = c.quality := by
  split <;> rfl

lemma resize_check_fpsSmoothed (c : QState) (ts : ℚ) :
    ((if RESIZE_CHECK_MS < ts - c.lastResizeQualityCheck then
        { c with lastResizeQualityCheck := ts } else c) : QState).fpsSmoothed
      = c.fpsSmoothed := by
  split <;> rfl

lemma updateQuality_step (pow78 : ℚ → ℚ) (hm : Monotone pow78)
    (st : QState) (ts deltaMs : ℚ)
    (hf : 1000 / clamp deltaMs 6 120 ≤ st.fpsSmoothed)
    (hq : qualityFromFps pow78 (min st.fpsSmoothed 62) ≤ st.quality)
    (hq1 : st.quality ≤ 1) :
    1000 / clamp deltaMs 6 120 ≤ (updateQuality pow78 st ts deltaMs).fpsSmoothed
    ∧ qualityFromFps pow78 (min (updateQuality pow78 st ts deltaMs).fpsSmoothed 62)
        ≤ (updateQuality pow78 st ts deltaMs).quality
    ∧ (updateQuality pow78 st ts deltaMs).quality ≤ 1
    ∧ (updateQuality pow78 st ts deltaMs).quality ≤ st.quality
    ∧ (updateQuality pow78 st ts deltaMs).fpsSmoothed ≤ st.fpsSmoothed := by
  set f := 1000 / clamp deltaMs 6 120 with hfdef
  obtain ⟨hef, hes⟩ := fps_ema_between hf
  unfold updateQuality
  dsimp only
  rw [← hfdef, resize_check_quality, resize_check_fpsSmoothed]
  split_ifs with hg
  · dsimp only
    have ht : qualityFromFps pow78 (min (st.fpsSmoothed + (f - st.fpsSmoothed) * FPS_EMA) 62)
        ≤ st.quality :=
      (qualityFromFps_mono pow78 hm (min_le_min hes le_rfl)).trans hq
    have hmin : MIN_QUALITY ≤ qualityFromFps pow78
        (min (st.fpsSmoothed + (f - st.fpsSmoothed) * FPS_EMA) 62) :=
      min_quality_le_qualityFromFps _ _
    have hmid1 : qualityFromFps pow78 (min (st.fpsSmoothed + (f - st.fpsSmoothed) * FPS_EMA) 62)
        ≤ st.quality + (qualityFromFps pow78
            (min (st.fpsSmoothed + (f - st.fpsSmoothed) * FPS_EMA) 62) - st.quality)
          * QUALITY_EMA := by
      simp only [QUALITY_EMA]; linarith
    have hmid2 : st.quality + (qualityFromFps pow78
          (min (st.fpsSmoothed + (f - st.fpsSmoothed) * FPS_EMA) 62) - st.quality)
        * QUALITY_EMA ≤ st.quality := by
      simp only [QUALITY_EMA]; linarith
    have hcl : clamp (st.quality + (qualityFromFps pow78
          (min (st.fpsSmoothed + (f - st.fpsSmoothed) * FPS_EMA) 62) - st.quality)
        * QUALITY_EMA) MIN_QUALITY MAX_QUALITY
        = st.quality + (qualityFromFps pow78
            (min (st.fpsSmoothed + (f - st.fpsSmoothed) * FPS_EMA) 62) - st.quality)
          * QUALITY_EMA := by
      refine clamp_eq_of _ _ _ (hmin.trans hmid1) ?_
      have : st.quality ≤ MAX_QUALITY := by simpa [MAX_QUALITY] using hq1
      exact hmid2.trans this
    rw [hcl]
    exact ⟨hef, hmid1, hmid2.trans hq1, hmid2, hes⟩
  · dsimp only
    have ht : qualityFromFps pow78 (min (st.fpsSmoothed + (f - st.fpsSmoothed) * FPS_EMA) 62)
        ≤ st.quality :=
      (qualityFromFps_mono pow78 hm (min_le_min hes le_rfl)).trans hq
    exact ⟨hef, ht, hq1, le_rfl, hes⟩

lemma pushParticle_length_le_max (cap : ℕ) (ps : List Particle) (p : Particle) :
    (pushParticle cap ps p).length ≤ max ps.length cap := by
  unfold pushParticle
  split_ifs with h
  · exact le_max_left _ _
  · simp only [List.length_append, List.length_cons, List.length_nil]
    omega

lemma pushParticle_length_le (cap : ℕ) (ps : List Particle) (p : Particle)
    (h : ps.length ≤ cap) : (pushParticle cap ps p).length ≤ cap := by
  have := pushParticle_length_le_max cap ps p
  omega

lemma pushN_length (cap : ℕ) (mk : ℕ → Particle) :
    ∀ (n : ℕ) (ps : List Particle), ps.length ≤ cap →
      (pushN cap mk n ps).length = min (ps.length + n) cap := by
  intro n
  induction n with
  | zero =>
      intro ps h
      simp only [pushN]
      omega
  | succ k ih =>
      intro ps h
      simp only [pushN]
      by_cases hc : cap ≤ ps.length
      · have hid : pushParticle cap ps (mk k) = ps := by
          unfold pushParticle
          rw [if_pos hc]
        rw [hid, ih ps h]
        omega
      · have hpl : (pushParticle cap ps (mk k)).length = ps.length + 1 := by
          unfold pushParticle
          rw [if_neg hc]
          simp
        rw [ih _ (by omega), hpl]
        omega

lemma foldl_pushParticle_length (cap : ℕ) :
    ∀ (xs : List Particle) (q : List Particle), q.length ≤ cap →
      (xs.foldl (pushParticle cap) q).length ≤ cap := by
  intro xs
  induction xs with
  | nil => intro q h; simpa using h
  | cons x rest ih =>
      intro q h
      simpa using ih (pushParticle cap q x) (pushParticle_length_le cap q x h)

lemma armLoop_spec (cap total : ℕ) (mk : ℕ → Particle) :
    ∀ (j : ℕ) (acc : List Particle × ℕ), acc.2 ≤ total →
      total - acc.2 ≤ cap - acc.1.length →
      (armLoop cap total mk j acc).2 = min (acc.2 + j) total
      ∧ (armLoop cap total mk j acc).1.length
          = acc.1.length + (min (acc.2 + j) total - acc.2) := by
  intro j
  induction j with
  | zero =>
      intro acc h1 h2
      simp only [armLoop]
      omega
  | succ k ih =>
      intro acc h1 h2
      simp only [armLoop]
      by_cases hlt : acc.2 < total
      · rw [if_pos hlt]
        have hroom : acc.1.length < cap := by omega
        have hpl : (pushParticle cap acc.1 (mk acc.2)).length = acc.1.length + 1 := by
          unfold pushParticle
          rw [if_neg (by omega)]
          simp
        have := ih (pushParticle cap acc.1 (mk acc.2), acc.2 + 1)
          (by simpa using hlt) (by simp only [hpl]; omega)
        simp only [hpl] at this
        omega
      · rw [if_neg hlt]
        have := ih acc h1 h2
        omega

lemma palmLoop_spec (cap total perArm : ℕ) (mk : ℕ → Particle) :
    ∀ (a : ℕ) (acc : List Particle × ℕ), acc.2 ≤ total →
      total - acc.2 ≤ cap - acc.1.length →
      (palmLoop cap total perArm mk a acc).2 = min (acc.2 + a * perArm) total
      ∧ (palmLoop cap total perArm mk a acc).1.length
          = acc.1.length + (min (acc.2 + a * perArm) total - acc.2) := by
  intro a
  induction a with
  | zero =>
      intro acc h1 h2
      simp only [palmLoop]
      omega
  | succ k ih =>
      intro acc h1 h2
      simp only [palmLoop]
      have harm := armLoop_spec cap total mk perArm acc h1 h2
      have hnext := ih (armLoop cap total mk perArm acc)
        (by omega) (by omega)
      rw [Nat.succ_mul]
      generalize hk : k * perArm = kk at hnext
      omega

lemma explodePeony_length (cap : ℕ) (ps : List Particle) (mk1 mk2 : ℕ → Particle)
    (pIntended gIntended : ℕ) (h : ps.length ≤ cap) :
    (explodePeony cap ps mk1 mk2 pIntended gIntended).length
      = min (ps.length + (pIntended + gIntended)) cap := by
  unfold explodePeony roomForParticles
  dsimp only
  split_ifs with h0
  · omega
  · have hA := pushN_length cap mk1 (min pIntended (cap - ps.length)) ps h
    have hB := pushN_length cap mk2
      (min gIntended (cap - (pushN cap mk1 (min pIntended (cap - ps.length)) ps).length))
      (pushN cap mk1 (min pIntended (cap - ps.length)) ps) (by rw [hA]; omega)
    rw [hB, hA]
    omega

lemma explodeRing_length (cap : ℕ) (ps : List Particle) (mk1 mk2 : ℕ → Particle)
    (cIntended coreIntended : ℕ) (h : ps.length ≤ cap) :
    (explodeRing cap ps mk1 mk2 cIntended coreIntended).length
      = min (ps.length + (cIntended + coreIntended)) cap := by
  unfold explodeRing roomForParticles
  dsimp only
  split_ifs with h0
  · omega
  · have hA := pushN_length cap mk1 (min cIntended (cap - ps.length)) ps h
    have hB := pushN_length cap mk2
      (min coreIntended (cap - (pushN cap mk1 (min cIntended (cap - ps.length)) ps).length))
      (pushN cap mk1 (min cIntended (cap - ps.length)) ps) (by rw [hA]; omega)
    rw [hB, hA]
    omega

lemma explodeCrackle_length (cap : ℕ) (ps : List Particle) (mk : ℕ → Particle)
    (cIntended : ℕ) (h : ps.length ≤ cap) :
    (explodeCrackle cap ps mk cIntended).length
      = min (ps.length + cIntended) cap := by
  unfold explodeCrackle roomForParticles
  dsimp only
  split_ifs with h0
  · omega
  · rw [pushN_length cap mk _ _ h]
    omega

lemma explodePalm_length (cap : ℕ) (ps : List Particle) (mk : ℕ → Particle)
    (arms perArm : ℕ) (h : ps.length ≤ cap) :
    (explodePalm cap ps mk arms perArm).length
      = min (ps.length + arms * perArm) cap := by
  unfold explodePalm roomForParticles
  dsimp only
  split_ifs with h0
  · omega
  · have := palmLoop_spec cap (min (arms * perArm) (cap - ps.length)) perArm mk arms
      (ps, 0) (by omega) (by dsimp only; omega)
    dsimp only at this
    generalize hk : arms * perArm = kk at this ⊢
    omega

lemma crackleMicroSpawn_length_le (cap : ℕ) (ps : List Particle) (mk : ℕ → Particle)
    (microCount : ℕ) (h : ps.length ≤ cap) :
    (crackleMicroSpawn cap ps mk microCount).length ≤ cap := by
  unfold crackleMicroSpawn roomForParticles
  split_ifs with h0
  · rw [pushN_length cap mk _ _ h]
    omega
  · exact h

lemma foldl_cons_eq {α : Type} (l acc : List α) :
    l.foldl (fun a x => x :: a) acc = l.reverse ++ acc := by
  induction l generalizing acc with
  | nil => simp
  | cons y t ih => simp [ih]

lemma drainStack_eq {α : Type} (live pool : List α) :
    drainStack live pool = live ++ pool := by
  unfold drainStack
  rw [foldl_cons_eq]
  simp

lemma pause_rockets (st : FwState) : (pause st).rockets = st.rockets := by
  unfold pause
  split <;> rfl

lemma pause_particles (st : FwState) : (pause st).particles = st.particles := by
  unfold pause
  split <;> rfl

lemma pause_smokePuffs (st : FwState) : (pause st).smokePuffs = st.smokePuffs := by
  unfold pause
  split <;> rfl

lemma pause_rocketPool (st : FwState) : (pause st).rocketPool = st.rocketPool := by
  unfold pause
  split <;> rfl

lemma pause_particlePool (st : FwState) : (pause st).particlePool = st.particlePool := by
  unfold pause
  split <;> rfl

lemma pause_smokePool (st : FwState) : (pause st).smokePool = st.smokePool := by
  unfold pause
  split <;> rfl

lemma maxParticlesCap_one : maxParticlesCap 1 = 50 := by
  have h : (50:ℚ) * lerp (55/100) 1 1 = 50 := by norm_num [lerp]
  rw [maxParticlesCap, h]
  norm_num
  rfl

lemma maxSmokeCap_one : maxSmokeCap 1 = 28 := by
  have h : (28:ℚ) * lerp (55/100) 1 1 = 28 := by norm_num [lerp]
  rw [maxSmokeCap, h]
  norm_num
  rfl

lemma maxRocketsCap_one : maxRocketsCap 1 = 2 := by
  have h : (2:ℚ) * lerp (62/100) 1 1 = 2 := by norm_num [lerp]
  rw [maxRocketsCap, h]
  norm_num [round_intCast]
  rfl

lemma chooseBurstKind_zero : chooseBurstKind 0 = "peony" := by
  norm_num [chooseBurstKind]

lemma updateQuality_quality_bounds (pow78 : ℚ → ℚ) (st : QState) (ts deltaMs : ℚ)
    (h1 : MIN_QUALITY ≤ st.quality) (h2 : st.quality ≤ MAX_QUALITY) :
    MIN_QUALITY ≤ (updateQuality pow78 st ts deltaMs).quality
    ∧ (updateQuality pow78 st ts deltaMs).quality ≤ MAX_QUALITY := by
  unfold updateQuality
  dsimp only
  rw [resize_check_quality]
  split_ifs with hg
  · exact ⟨le_clamp _ _ _, clamp_le _ _ _ (by norm_num [MIN_QUALITY, MAX_QUALITY])⟩
  · exact ⟨h1, h2⟩

/-- C1: for every adaptive particle capacity `cap` and live particle list
`ps` with `ps.length ≤ cap`, every burst pattern computes an intended
count and admits exactly `min(intended, headroom)` particles — so a
pattern that intends more than `cap - ps.length` particles creates
exactly `cap - ps.length` new live particles and leaves the live count at
`cap`, never more; moreover a single `pushParticle` never raises the live
count above the capacity in force at that push, and any sequence of
`pushParticle` insertions (all bursts and crackle micro-spawns insert
only through `pushParticle`) preserves `length ≤ cap`. -/
theorem c1_burst_respects_capacity
    (cap pIntended gIntended cIntended coreIntended crIntended arms perArm : ℕ)
    (ps : List Particle) (mk1 mk2 : ℕ → Particle)
    (h : ps.length ≤ cap) :
    (explodePeony cap ps mk1 mk2 pIntended gIntended).length
      = min (ps.length + (pIntended + gIntended)) cap
    ∧ (explodeRing cap ps mk1 mk2 cIntended coreIntended).length
      = min (ps.length + (cIntended + coreIntended)) cap
    ∧ (explodeCrackle cap ps mk1 crIntended).length
      = min (ps.length + crIntended) cap
    ∧ (explodePalm cap ps mk1 arms perArm).length
      = min (ps.length + arms * perArm) cap
    ∧ (∀ (c : ℕ) (q : List Particle) (p : Particle),
        (pushParticle c q p).length ≤ max q.length c)
    ∧ (∀ (xs q : List Particle), q.length ≤ cap →
        (xs.foldl (pushParticle cap) q).length ≤ cap)
    ∧ (∀ (q : List Particle) (n : ℕ), q.length ≤ cap →
        (crackleMicroSpawn cap q mk1 n).length ≤ cap) :=
  ⟨explodePeony_length cap ps mk1 mk2 pIntended gIntended h,
   explodeRing_length cap ps mk1 mk2 cIntended coreIntended h,
   explodeCrackle_length cap ps mk1 crIntended h,
   explodePalm_length cap ps mk1 arms perArm h,
   fun c q p => pushParticle_length_le_max c q p,
   fun xs q hq => foldl_pushParticle_length cap xs q hq,
   fun q n hq => crackleMicroSpawn_length_le cap q mk1 n hq⟩

/-- Witness for C1: a peony burst into an empty live list with capacity 50
that intends `110 + 26` particles creates exactly 50. -/
theorem c1_witness :
    (explodePeony 50 ([] : List Particle)
      (fun _ => baseParticle) (fun _ => baseParticle) 110 26).length = 50 := by
  simpa using
    (c1_burst_respects_capacity 50 110 26 90 18 90 7 15 ([] : List Particle)
      (fun _ => baseParticle) (fun _ => baseParticle) (by simp)).1

/-- C2 counterexample: `allocParticle` (`particlePool.pop() || baseParticle()`,
lines 380-382) returns a previously released record as-is; with a record
whose `life` was left at 5 on the free list, the acquired record has
`life = 5`, not the default 60 — so acquire does not return a
zeroed/default-valued record. -/
theorem c2_counterexample :
    (allocParticle [{ baseParticle with life := 5 }]).1.life = 5
    ∧ baseParticle.life = 60
    ∧ (allocParticle [{ baseParticle with life := 5 }]).1 ≠ baseParticle := by
  refine ⟨rfl, rfl, fun hcontra => ?_⟩
  have h5 := congrArg Particle.life hcontra
  norm_num [allocParticle, baseParticle] at h5

/-- C2 amended: the pool acquire operations return a previously released
record unchanged (its fields retain their prior values; the full
re-initialisation happens in `makeParticle` / `spawnRocket` /
`spawnSmoke`, not in the pool), and return a fresh default-valued record
only when the free list is empty — for all three entity kinds. -/
theorem c2_amended_pool_acquire (p : Particle) (prest : List Particle)
    (r : Rocket) (rrest : List Rocket) (s : Smoke) (srest : List Smoke) :
    allocParticle [] = (baseParticle, [])
    ∧ allocParticle (p :: prest) = (p, prest)
    ∧ allocRocket [] = (baseRocket, [])
    ∧ allocRocket (r :: rrest) = (r, rrest)
    ∧ allocSmoke [] = (baseSmoke, [])
    ∧ allocSmoke (s :: srest) = (s, srest) :=
  ⟨rfl, rfl, rfl, rfl, rfl, rfl⟩

/-- C3: the spawn initialisers overwrite every field of the recycled
record before it becomes live — the resulting record does not depend on
the prior occupant's field values at all — and a freshly made particle
has `maxLife = life`, so its life fraction `life / maxLife` is 1. -/
theorem c3_spawn_overwrites_all_fields
    (p1 p2 : Particle) (r1 r2 : Rocket) (s1 s2 : Smoke)
    (x y vx vy life size hue : ℚ) (kind : String)
    (twPhase twAmp dragMul gravMul windMul crackleTimer heat : ℚ)
    (startX startY rvx rvy targetY rhue wind : ℚ) (rkind : String) (breakDelay : ℚ)
    (sx sy svx svy slife sr sa : ℚ) :
    makeParticleRecord p1 x y vx vy life size hue kind
        twPhase twAmp dragMul gravMul windMul crackleTimer heat
      = makeParticleRecord p2 x y vx vy life size hue kind
        twPhase twAmp dragMul gravMul windMul crackleTimer heat
    ∧ spawnRocketRecord r1 startX startY rvx rvy targetY rhue wind rkind breakDelay
      = spawnRocketRecord r2 startX startY rvx rvy targetY rhue wind rkind breakDelay
    ∧ spawnSmokeRecord s1 sx sy svx svy slife sr sa
      = spawnSmokeRecord s2 sx sy svx svy slife sr sa
    ∧ (life ≠ 0 →
        (makeParticleRecord p1 x y vx vy life size hue kind
            twPhase twAmp dragMul gravMul windMul crackleTimer heat).life
          / (makeParticleRecord p1 x y vx vy life size hue kind
              twPhase twAmp dragMul gravMul windMul crackleTimer heat).maxLife = 1) :=
  ⟨rfl, rfl, rfl, fun hl => div_self hl⟩

/-- Witness for C3: re-initialising a recycled record that held stale data
(`life = 5`) gives the same record as re-initialising the default record,
and the new life fraction is 1. -/
theorem c3_witness :
    makeParticleRecord { baseParticle with life := 5 } 1 2 3 4 60 1 120 "spark"
        0 1 1 1 1 (3/100) 1
      = makeParticleRecord baseParticle 1 2 3 4 60 1 120 "spark"
        0 1 1 1 1 (3/100) 1
    ∧ (makeParticleRecord { baseParticle with life := 5 } 1 2 3 4 60 1 120 "spark"
        0 1 1 1 1 (3/100) 1).life
      / (makeParticleRecord { baseParticle with life := 5 } 1 2 3 4 60 1 120 "spark"
        0 1 1 1 1 (3/100) 1).maxLife = 1 := by
  have h := c3_spawn_overwrites_all_fields
    { baseParticle with life := 5 } baseParticle baseRocket baseRocket baseSmoke baseSmoke
    1 2 3 4 60 1 120 "spark" 0 1 1 1 1 (3/100) 1
    0 0 0 0 0 0 0 "peony" 0 0 0 0 0 0 0 0
  exact ⟨h.1, h.2.2.2 (by norm_num)⟩

/-- C4: the quality scalar stays in `[0.55, 1.0]`: it is 1.0 after
`resetPerf` (which `start` and `resume` both call), and one
`updateQuality` step — which moves quality by EMA toward the clamped
target `qualityFromFps(min(fpsSmoothed, 62))` and then clamps to
`[MIN_QUALITY, MAX_QUALITY]` — keeps it inside the interval. -/
theorem c4_quality_always_in_range (pow78 : ℚ → ℚ) (st : QState) (ts deltaMs : ℚ)
    (h1 : 55/100 ≤ st.quality) (h2 : st.quality ≤ 1) :
    resetPerf.quality = 1
    ∧ 55/100 ≤ (updateQuality pow78 st ts deltaMs).quality
    ∧ (updateQuality pow78 st ts deltaMs).quality ≤ 1 := by
  have hb := updateQuality_quality_bounds pow78 st ts deltaMs
    (by simpa [MIN_QUALITY] using h1) (by simpa [MAX_QUALITY] using h2)
  exact ⟨rfl, by simpa [MIN_QUALITY] using hb.1, by simpa [MAX_QUALITY] using hb.2⟩

/-- Witness for C4: one update step from the freshly reset governor at a
16 ms frame delta stays inside `[0.55, 1]`. -/
theorem c4_witness :
    55/100 ≤ (updateQuality (fun q => q) resetPerf 1000 16).quality
    ∧ (updateQuality (fun q => q) resetPerf 1000 16).quality ≤ 1 := by
  have h := c4_quality_always_in_range (fun q => q) resetPerf 1000 16
    (by norm_num [resetPerf]) (by norm_num [resetPerf])
  exact ⟨h.2.1, h.2.2⟩

/-- C5: with the per-tick wall-clock delta held constant (so `fpsInstant =
1000 / clamp(deltaMs, 6, 120)` is constant) at a value at or below the
smoothed FPS, at or below the 62-fps decision cut-off, and whose implied
quality target is at or below the current quality, repeated
`updateQuality` invocations drive the quality monotonically non-increasing
while it never drops below `qualityFromFps(fpsInstant)`. -/
theorem c5_quality_monotone_convergence (pow78 : ℚ → ℚ) (deltaMs : ℚ) (ts : ℕ → ℚ)
    (st0 : QState) (hm : Monotone pow78)
    (h62 : 1000 / clamp deltaMs 6 120 ≤ 62)
    (hfs : 1000 / clamp deltaMs 6 120 ≤ st0.fpsSmoothed)
    (hq : qualityFromFps pow78 (min st0.fpsSmoothed 62) ≤ st0.quality)
    (hq1 : st0.quality ≤ 1) :
    ∀ n : ℕ,
      (qualityTrace pow78 deltaMs ts st0 (n + 1)).quality
        ≤ (qualityTrace pow78 deltaMs ts st0 n).quality
      ∧ qualityFromFps pow78 (1000 / clamp deltaMs 6 120)
        ≤ (qualityTrace pow78 deltaMs ts st0 n).quality := by
  have inv : ∀ n : ℕ,
      1000 / clamp deltaMs 6 120 ≤ (qualityTrace pow78 deltaMs ts st0 n).fpsSmoothed
      ∧ qualityFromFps pow78 (min (qualityTrace pow78 deltaMs ts st0 n).fpsSmoothed 62)
          ≤ (qualityTrace pow78 deltaMs ts st0 n).quality
      ∧ (qualityTrace pow78 deltaMs ts st0 n).quality ≤ 1 := by
    intro n
    induction n with
    | zero => exact ⟨hfs, hq, hq1⟩
    | succ k ih =>
        have hstep := updateQuality_step pow78 hm (qualityTrace pow78 deltaMs ts st0 k)
          (ts k) deltaMs ih.1 ih.2.1 ih.2.2
        exact ⟨hstep.1, hstep.2.1, hstep.2.2.1⟩
  intro n
  have hstep := updateQuality_step pow78 hm (qualityTrace pow78 deltaMs ts st0 n)
    (ts n) deltaMs (inv n).1 (inv n).2.1 (inv n).2.2
  refine ⟨hstep.2.2.2.1, ?_⟩
  have hle : 1000 / clamp deltaMs 6 120
      ≤ min (qualityTrace pow78 deltaMs ts st0 n).fpsSmoothed 62 :=
    le_min (inv n).1 h62
  exact (qualityFromFps_mono pow78 hm hle).trans (inv n).2.1

/-- Witness for C5: a constant 100/3 ms delta (30 fps) against the freshly
reset governor — after one step the quality has not crossed below the
target implied by the constant FPS, and the next step does not increase
it. -/
theorem c5_witness :
    qualityFromFps (fun q => q) (1000 / clamp (100/3) 6 120)
      ≤ (qualityTrace (fun q => q) (100/3) (fun n => 300 * ((n : ℚ) + 1)) resetPerf 1).quality
    ∧ (qualityTrace (fun q => q) (100/3) (fun n => 300 * ((n : ℚ) + 1)) resetPerf 2).quality
      ≤ (qualityTrace (fun q => q) (100/3) (fun n => 300 * ((n : ℚ) + 1)) resetPerf 1).quality := by
  have h := c5_quality_monotone_convergence (fun q => q) (100/3)
    (fun n => 300 * ((n : ℚ) + 1)) resetPerf
    (fun a b hab => hab)
    (by norm_num [clamp])
    (by norm_num [clamp, resetPerf, TARGET_FPS])
    (by norm_num [qualityFromFps, clamp, resetPerf, TARGET_FPS, MIN_QUALITY, MAX_QUALITY])
    (by norm_num [resetPerf])
  exact ⟨(h 1).2, (h 1).1⟩

/-- C6: `pause()` immediately followed by `resume()` leaves all three live
collections exactly as they were (neither call adds, removes or mutates a
live entity), `resume` nulls the simulation clock (`lastTs = null`), so
the first `step` after resume computes `deltaMs = 0` and hence `dt = 0`;
and in general the simulated step `dt = clamp(deltaMs/1000, 0, 0.033)`
never exceeds `0.033` s no matter how much wall-clock time elapsed. -/
theorem c6_pause_resume_preserves_entities (st : FwState)
    (newW newH windRand now ts : ℚ) :
    (resume (pause st) newW newH windRand now).rockets = st.rockets
    ∧ (resume (pause st) newW newH windRand now).particles = st.particles
    ∧ (resume (pause st) newW newH windRand now).smokePuffs = st.smokePuffs
    ∧ (resume (pause st) newW newH windRand now).lastTs = none
    ∧ stepDt (resume (pause st) newW newH windRand now).lastTs ts = 0
    ∧ (∀ (lt : Option ℚ) (ts2 : ℚ), stepDt lt ts2 ≤ 33/1000) := by
  refine ⟨?_, ?_, ?_, rfl, ?_, ?_⟩
  · rw [show (resume (pause st) newW newH windRand now).rockets = (pause st).rockets from rfl,
      pause_rockets]
  · rw [show (resume (pause st) newW newH windRand now).particles = (pause st).particles from rfl,
      pause_particles]
  · rw [show (resume (pause st) newW newH windRand now).smokePuffs = (pause st).smokePuffs from rfl,
      pause_smokePuffs]
  · show stepDt (none : Option ℚ) ts = 0
    norm_num [stepDt, clamp]
  · intro lt ts2
    exact clamp_le _ _ _ (by norm_num)

/-- C7: when `stop()` returns, all three live collections are empty and
every entity that was live at the moment of the call has been released
into its matching pool. -/
theorem c7_stop_releases_everything (st : FwState) (newW newH : ℚ) :
    (stop st newW newH).rockets = []
    ∧ (stop st newW newH).particles = []
    ∧ (stop st newW newH).smokePuffs = []
    ∧ (∀ r : Rocket, r ∈ st.rockets → r ∈ (stop st newW newH).rocketPool)
    ∧ (∀ p : Particle, p ∈ st.particles → p ∈ (stop st newW newH).particlePool)
    ∧ (∀ s : Smoke, s ∈ st.smokePuffs → s ∈ (stop st newW newH).smokePool) := by
  refine ⟨rfl, rfl, rfl, ?_, ?_, ?_⟩
  · intro r hr
    show r ∈ drainStack (pause st).rockets (pause st).rocketPool
    rw [drainStack_eq, pause_rockets]
    exact List.mem_append_left _ hr
  · intro p hp
    show p ∈ drainStack (pause st).particles (pause st).particlePool
    rw [drainStack_eq, pause_particles]
    exact List.mem_append_left _ hp
  · intro s hs
    show s ∈ drainStack (pause st).smokePuffs (pause st).smokePool
    rw [drainStack_eq, pause_smokePuffs]
    exact List.mem_append_left _ hs

/-- Witness for C7: stopping a state with one live rocket, particle and
smoke puff empties the particle list and the released particle is found
in the pool. -/
theorem c7_witness :
    (stop demoLiveState 800 600).particles = []
    ∧ baseParticle ∈ (stop demoLiveState 800 600).particlePool
    ∧ baseRocket ∈ (stop demoLiveState 800 600).rocketPool
    ∧ baseSmoke ∈ (stop demoLiveState 800 600).smokePool := by
  have h := c7_stop_releases_everything demoLiveState 800 600
  exact ⟨h.2.1,
    h.2.2.2.2.1 baseParticle (by simp [demoLiveState]),
    h.2.2.2.1 baseRocket (by simp [demoLiveState]),
    h.2.2.2.2.2 baseSmoke (by simp [demoLiveState])⟩

/-- C8: `start({celebrate:false})` on an 800×600 surface schedules zero
celebratory bursts, resets quality to 1.0 (so the launch factor is 1 and
the desktop base applies), and the randomized auto-launch interval is in
`[1050, 2100)` for every `Math.random()` outcome `u ∈ [0,1)`; the
scheduler fires its first rocket at the first frame whose timestamp
exceeds `start time + interval`, and a rocket spawn at that point
succeeds when no rockets are live. -/
theorem c8_start_without_celebrate (st : FwState) (windRand now u : ℚ)
    (h0 : 0 ≤ u) (h1 : u < 1) :
    (start st false 800 600 windRand now).2 = []
    ∧ (start st false 800 600 windRand now).1.perf.quality = 1
    ∧ 1050 ≤ autoLaunchInterval 800 1 u
    ∧ autoLaunchInterval 800 1 u < 2100
    ∧ (∀ ts : ℚ, autoLaunchFires (start st false 800 600 windRand now).1 ts u
        ↔ autoLaunchInterval 800 1 u < ts - now)
    ∧ (st.rockets = [] → ∀ ri : RocketInit,
        (spawnRocket (start st false 800 600 windRand now).1 ri).rockets.length = 1) := by
  have hI : autoLaunchInterval 800 1 u = 1050 + u * 1050 := by
    norm_num [autoLaunchInterval, launchQualityFactor, lerp]
  refine ⟨rfl, rfl, ?_, ?_, ?_, ?_⟩
  · rw [hI]
    have := mul_nonneg h0 (by norm_num : (0:ℚ) ≤ 1050)
    linarith
  · rw [hI]
    have := mul_lt_mul_of_pos_right h1 (by norm_num : (0:ℚ) < 1050)
    linarith
  · intro ts
    exact Iff.rfl
  · intro hre ri
    have hw : (start st false 800 600 windRand now).1.w = 800 := rfl
    have hh : (start st false 800 600 windRand now).1.h = 600 := rfl
    have hqual : (start st false 800 600 windRand now).1.perf.quality = 1 := rfl
    have hrk : (start st false 800 600 windRand now).1.rockets = st.rockets := rfl
    unfold spawnRocket
    rw [hqual, maxRocketsCap_one, hrk, hre, hw, hh]
    rw [if_neg (by simp), if_neg (by norm_num)]
    simp

/-- Witness for C8: at `u = 1/2` the interval is 1575 ms, inside
`[1050, 2100)`. -/
theorem c8_witness :
    (start pausedDemoState false 800 600 3 0).2 = []
    ∧ 1050 ≤ autoLaunchInterval 800 1 (1/2)
    ∧ autoLaunchInterval 800 1 (1/2) < 2100 := by
  have h := c8_start_without_celebrate pausedDemoState 3 0 (1/2)
    (by norm_num) (by norm_num)
  exact ⟨h.1, h.2.2.1, h.2.2.2.1⟩

/-- C9 counterexample: on a 5×5 surface the area is nonzero, yet the
manual `burst` request is refused (the guard on line 769 is
`w < 10 || h < 10`, not a zero-area test) — even while Running. -/
theorem c9_counterexample :
    narrowState.w ≠ 0 ∧ narrowState.h ≠ 0 ∧ narrowState.running = true
    ∧ burstAccepted narrowState = false
    ∧ burst narrowState 2 3 120 0 0 demoSmoke demoPat = narrowState := by
  refine ⟨by norm_num [narrowState], by norm_num [narrowState], rfl, ?_, ?_⟩
  · simp [burstAccepted, narrowState]
    norm_num
  · unfold burst
    rw [if_pos (Or.inl (show narrowState.w < 10 by norm_num [narrowState]))]

/-- C9 amended: a manual `burst(x, y)` request is accepted — it invokes
the burst generator — if and only if the surface is at least 10 px wide
and 10 px tall (`¬(w < 10 ∨ h < 10)`), in every lifecycle state (the
guard never consults `running`); it is refused (a no-op) otherwise. -/
theorem c9_amended_burst_guard (st : FwState) (b : Bool)
    (x y hueRand kindRand smokeRand : ℚ) (si : SmokeInit) (pr : PatRands) :
    (burstAccepted st = true ↔ 10 ≤ st.w ∧ 10 ≤ st.h)
    ∧ burstAccepted { st with running := b } = burstAccepted st
    ∧ (burstAccepted st = false → burst st x y hueRand kindRand smokeRand si pr = st)
    ∧ (burstAccepted st = true →
        burst st x y hueRand kindRand smokeRand si pr
          = explodeBurst st x y hueRand (chooseBurstKind kindRand) smokeRand si pr) := by
  have hiff : burstAccepted st = true ↔ 10 ≤ st.w ∧ 10 ≤ st.h := by
    simp [burstAccepted, not_or, not_lt]
  refine ⟨hiff, rfl, ?_, ?_⟩
  · intro hf
    have hcond : st.w < 10 ∨ st.h < 10 := by
      rcases lt_or_le st.w 10 with hlt | hge
      · exact Or.inl hlt
      · rcases lt_or_le st.h 10 with hlt2 | hge2
        · exact Or.inr hlt2
        · exact absurd (hiff.mpr ⟨hge, hge2⟩) (by simp [hf])
    unfold burst
    rw [if_pos hcond]
  · intro ht
    have hcond : ¬(st.w < 10 ∨ st.h < 10) := by
      have hwh := hiff.mp ht
      push_neg
      exact hwh
    unfold burst
    rw [if_neg hcond]

/-- Witness for C9 amended: on the 800×600 surface the request is
accepted and invokes the burst generator, even though `running = false`. -/
theorem c9_witness :
    burstAccepted pausedDemoState = true
    ∧ burst pausedDemoState 400 360 120 0 0 demoSmoke demoPat
      = explodeBurst pausedDemoState 400 360 120 (chooseBurstKind 0) 0 demoSmoke demoPat := by
  have h := c9_amended_burst_guard pausedDemoState false 400 360 120 0 0 demoSmoke demoPat
  have hacc : burstAccepted pausedDemoState = true :=
    h.1.mpr ⟨by norm_num [pausedDemoState], by norm_num [pausedDemoState]⟩
  exact ⟨hacc, h.2.2.2 hacc⟩

/-- C10: the three celebratory bursts scheduled by `start({celebrate:true})`
run `burst` with no re-check of the Running state — delivered into a
paused 800×600 system they still create live particles (here 50, the full
headroom) and a smoke puff — whereas the delayed sub-burst callback is
guarded by `if (!running) return;` and leaves a non-running system
completely unchanged. -/
theorem c10_celebration_timer_ignores_running :
    pausedDemoState.running = false
    ∧ 0 < (celebrationTimerFire pausedDemoState 400 372 120 0 0
        demoSmoke demoPat).particles.length
    ∧ 0 < (celebrationTimerFire pausedDemoState 400 372 120 0 0
        demoSmoke demoPat).smokePuffs.length
    ∧ subBurstTimerFire pausedDemoState 400 372 120 0 demoSmoke demoPat
      = pausedDemoState := by
  have hq1 : pausedDemoState.perf.quality = 1 := rfl
  have hguard : ¬(pausedDemoState.w < 10 ∨ pausedDemoState.h < 10) := by
    norm_num [pausedDemoState]
  have hsc : (0:ℚ) < 85/100 * lerp (55/100) 1 pausedDemoState.perf.quality := by
    rw [hq1]
    norm_num [lerp]
  have hS : spawnSmoke pausedDemoState 400 372 demoSmoke
      = { pausedDemoState with
          smokePool := []
          smokePuffs := [spawnSmokeRecord baseSmoke 400 372 0 (-5) 60 30 (1/10)] } := by
    unfold spawnSmoke
    rw [if_neg (by rw [hq1, maxSmokeCap_one]; norm_num [pausedDemoState])]
    rfl
  have hcf : celebrationTimerFire pausedDemoState 400 372 120 0 0 demoSmoke demoPat
      = { pausedDemoState with
          smokePool := []
          smokePuffs := [spawnSmokeRecord baseSmoke 400 372 0 (-5) 60 30 (1/10)]
          particles := explodePeony (maxParticlesCap 1) ([] : List Particle)
            demoPat.mk1 demoPat.mk2 demoPat.c1 demoPat.c2 } := by
    unfold celebrationTimerFire burst
    rw [if_neg hguard, chooseBurstKind_zero]
    unfold explodeBurst
    rw [if_pos hsc, hS]
    rw [if_neg (by decide), if_neg (by decide), if_neg (by decide)]
    rfl
  refine ⟨rfl, ?_, ?_, ?_⟩
  · rw [hcf]
    show 0 < (explodePeony (maxParticlesCap 1) ([] : List Particle)
      demoPat.mk1 demoPat.mk2 demoPat.c1 demoPat.c2).length
    rw [explodePeony_length (maxParticlesCap 1) ([] : List Particle)
      demoPat.mk1 demoPat.mk2 demoPat.c1 demoPat.c2 (by simp), maxParticlesCap_one]
    norm_num [demoPat]
  · rw [hcf]
    show 0 < [spawnSmokeRecord baseSmoke 400 372 0 (-5) 60 30 (1/10)].length
    simp
  · unfold subBurstTimerFire
    rw [if_neg (by simp [pausedDemoState])]
